import Mathlib

/-!
Shallow embedding of the ollama-claude-proxy core (format converter,
key-rotation config, resilient transport loops, stream demultiplexing),
translated from `src/format/converter.js`, `src/config.js`,
`src/ollama/client.js`, `src/ollama/openai-client.js`,
`src/utils/helpers.js` and the error classifier in `src/server.js`.

JavaScript conventions modelled explicitly:
  - `a || b` on strings: the left value is taken unless it is falsy
    (absent/undefined or the empty string), else the right value (`jsOrStr`);
  - `a || b` on counters: absent/undefined or 0 falls through (`jsONat`);
  - truthiness of a content value: a string is truthy iff non-empty, an
    object is always truthy, undefined is falsy (`contentTruthy`);
  - string coercion of an object under `+=` yields "[object Object]".
Numbers that only pass through untouched (sampling parameters) are carried
as `Int`; token counters are `Nat` (`Option` marks an absent JSON field).
Randomized `id` fields and wall-clock `created` timestamps are omitted
from the response records (no claim mentions them).
-/

namespace OllamaProxy

/-- JS `a || b` for an optional string field: falsy (absent or empty) falls
through to the default. -/
def jsOrStr (a : Option String) (b : String) : String :=
  match a with
  | some s => if s = "" then b else s
  | none => b

/-- JS `a || b` for an optional numeric counter: falsy (absent or 0) falls
through to the default. -/
def jsONat (a : Option Nat) (b : Nat) : Nat :=
  match a with
  | some n => if n = 0 then b else n
  | none => b

/-- `pat` begins the character list `s`. -/
def leadsWith : List Char → List Char → Bool
  | [], _ => true
  | _ :: _, [] => false
  | a :: as, b :: bs => a == b && leadsWith as bs

/-- `pat` occurs somewhere in the character list. -/
def occursIn (pat : List Char) : List Char → Bool
  | [] => leadsWith pat []
  | c :: rest => leadsWith pat (c :: rest) || occursIn pat rest

/-- Substring test (JS `String.prototype.includes`). -/
def containsSub (s pat : String) : Bool :=
  occursIn pat.data s.data

/-- A thrown JS `Error`, identified by its message (the source discriminates
errors only by substring-matching the message). -/
structure JsError where
  message : String
deriving Repr, DecidableEq

/-- `isNetworkError` from `src/utils/helpers.js`. -/
def isNetworkError (e : JsError) : Bool :=
  containsSub e.message "ECONNREFUSED" ||
  containsSub e.message "ENOTFOUND" ||
  containsSub e.message "ETIMEDOUT" ||
  containsSub e.message "socket hang up" ||
  containsSub e.message "fetch failed"

/-- The error kinds `parseError` in `src/server.js` can report. -/
inductive ErrorType where
  | authentication
  | rate_limit
  | invalid_request
  | api
deriving Repr, DecidableEq

/-- The `errorType` classification of `parseError` in `src/server.js`:
substring-matching on the error message. -/
def parseErrorType (msg : String) : ErrorType :=
  if containsSub msg "401" || containsSub msg "authentication_error" then .authentication
  else if containsSub msg "429" || containsSub msg "rate_limit" then .rate_limit
  else if containsSub msg "invalid_request_error" then .invalid_request
  else .api

/-! ## Request side: `convertAnthropicToOllama` (src/format/converter.js) -/

/-- One Anthropic content block.  `toolUse.input` carries the
`JSON.stringify(block.input)` rendering as an opaque string; `other` is any
block whose `type` is none of text/tool_use/tool_result (the loop adds
nothing for it). -/
inductive Block where
  | text (t : String)
  | toolUse (name : String) (input : String)
  | toolResult (content : String)
  | other
deriving Repr, DecidableEq

/-- The `content` field of an Anthropic message: a string, an array of
blocks, or anything else (neither string nor array). -/
inductive MsgContent where
  | str (s : String)
  | blocks (bs : List Block)
  | other
deriving Repr, DecidableEq

structure AMessage where
  role : String
  content : MsgContent
deriving Repr, DecidableEq

/-- An element of an array-valued `system` prompt; `text` may be absent. -/
structure SysItem where
  text : Option String
deriving Repr, DecidableEq

/-- The `system` field: a string or an array of segments. -/
inductive SysVal where
  | str (s : String)
  | arr (xs : List SysItem)
deriving Repr, DecidableEq

structure ARequest where
  model : String
  messages : List AMessage
  system : Option SysVal
  max_tokens : Option Int
  temperature : Option Int
  top_p : Option Int
deriving Repr, DecidableEq

/-- A target (Ollama) message: role plus flat string content. -/
structure OMessage where
  role : String
  content : String
deriving Repr, DecidableEq

/-- The Ollama `options` map; a field is present only if the source
supplied it. -/
structure OllamaOptions where
  temperature : Option Int
  top_p : Option Int
  num_predict : Option Int
deriving Repr, DecidableEq

structure ORequest where
  model : String
  messages : List OMessage
  stream : Bool
  options : OllamaOptions
deriving Repr, DecidableEq

/-- Role collapse in `convertAnthropicToOllama`: user stays user, assistant
stays assistant, anything else becomes user. -/
def collapseRole (r : String) : String :=
  if r = "user" then "user" else if r = "assistant" then "assistant" else "user"

/-- Text contributed by one block in the flattening loop. -/
def renderBlock : Block → String
  | .text t => t
  | .toolUse name input => "[tool_call: " ++ name ++ "(" ++ input ++ ")]"
  | .toolResult c => "[tool_result: " ++ c ++ "]"
  | .other => ""

/-- The `content += ...` accumulation over a block array. -/
def flattenBlocks (bs : List Block) : String :=
  bs.foldl (fun acc b => acc ++ renderBlock b) ""

/-- The messages contributed by one source message (the body of the
`for (const msg of messages)` loop): a string content is always pushed, an
array is flattened and pushed only when the result is truthy (non-empty),
anything else contributes nothing. -/
def convertMsg (m : AMessage) : List OMessage :=
  match m.content with
  | .str s => [⟨collapseRole m.role, s⟩]
  | .blocks bs =>
      if flattenBlocks bs = "" then [] else [⟨collapseRole m.role, flattenBlocks bs⟩]
  | .other => []

/-- The synthetic system message: pushed only when `system` is truthy; a
string is used verbatim, an array contributes `system[0]?.text || ""`. -/
def systemPart (sys : Option SysVal) : List OMessage :=
  match sys with
  | none => []
  | some (.str s) => if s = "" then [] else [⟨"system", s⟩]
  | some (.arr xs) => [⟨"system", jsOrStr (xs.head?.bind SysItem.text) ""⟩]

/-- `convertAnthropicToOllama` from `src/format/converter.js`. -/
def convertAnthropicToOllama (r : ARequest) : ORequest :=
  { model := r.model
    messages := systemPart r.system ++ r.messages.flatMap convertMsg
    stream := false
    options := ⟨r.temperature, r.top_p, r.max_tokens⟩ }

/-! ## Response side (src/format/converter.js, response and stream chunks) -/

/-- The `content` field of a target response message: a plain string, a
nested object (for reasoning models) of which the converters read the
optional string subfields `content` and `text`, or absent. -/
inductive RespContent where
  | str (s : String)
  | obj (content text : Option String)
  | none_
deriving Repr, DecidableEq

/-- A target response `message` object: `content` plus the optional
`thinking` string of reasoning models. -/
structure RespMessage where
  content : RespContent
  thinking : Option String
deriving Repr, DecidableEq

/-- The `message` field of a target response: an object, bare string, or
absent. -/
inductive RespMsg where
  | obj (m : RespMessage)
  | str (s : String)
  | absent
deriving Repr, DecidableEq

/-- A parsed target (Ollama) response body or stream line:
`{message?, done, prompt_eval_count?, eval_count?}`. -/
structure OllamaPayload where
  message : RespMsg
  done : Bool
  prompt_eval_count : Option Nat
  eval_count : Option Nat
deriving Repr, DecidableEq

/-- The value `convertOllamaToAnthropic` extracts for the text block: a
string, or — when the nested object's `content` and `text` subfields are
both falsy — the nested object itself, leaked through by
`... || message.content || ""`. -/
inductive JStr where
  | str (s : String)
  | objLeak (content text : Option String)
deriving Repr, DecidableEq

/-- JS `.length` of the extracted value: defined only for strings. -/
def jstrLen : JStr → Option Nat
  | .str s => some s.length
  | .objLeak _ _ => none

/-- Truthiness of an optional string field. -/
def strTruthy : Option String → Bool
  | some s => s != ""
  | none => false

/-- `message.content.content || message.content.text || message.content`
(the Anthropic-response extraction over the nested object). -/
def extractObj (c t : Option String) : JStr :=
  if strTruthy c then .str (c.getD "")
  else if strTruthy t then .str (t.getD "")
  else .objLeak c t

/-- The non-id fields of `convertOllamaToAnthropic`'s result (content is a
single text block whose text is `text`). -/
structure AnthropicResponse where
  text : JStr
  model : String
  stop_reason : Option String
  input_tokens : Nat
  output_tokens : Nat
deriving Repr, DecidableEq

/-- `convertOllamaToAnthropic` from `src/format/converter.js`.  Note: the
`thinking` field of the message is never read here. -/
def convertOllamaToAnthropic (r : OllamaPayload) (model : String) : AnthropicResponse :=
  let text : JStr :=
    match r.message with
    | .obj m =>
        match m.content with
        | .str s => .str s
        | .obj c t => extractObj c t
        | .none_ => .str ""
    | .str s => .str s
    | .absent => .str ""
  { text := text
    model := model
    stop_reason := if r.done then some "end_turn" else none
    input_tokens := jsONat r.prompt_eval_count 0
    output_tokens := jsONat r.eval_count (jsONat (jstrLen text) 0) }

/-- The non-id fields of `convertOllamaToOpenAI`'s result. -/
structure OpenAIResponse where
  content : String
  model : String
  finish_reason : Option String
  prompt_tokens : Nat
  completion_tokens : Nat
  total_tokens : Nat
deriving Repr, DecidableEq

/-- The pre-thinking content extraction of `convertOllamaToOpenAI`:
a string content verbatim, else `content.content || content.text || ""`
for a (truthy) nested object, else the empty string. -/
def renderedContent : RespContent → String
  | .str s => s
  | .obj c t => jsOrStr c (jsOrStr t "")
  | .none_ => ""

/-- `convertOllamaToOpenAI` from `src/format/converter.js`: extracts the
content, then prepends a truthy `thinking` with a blank line when the
content is non-empty. -/
def convertOllamaToOpenAI (r : OllamaPayload) (model : String) : OpenAIResponse :=
  let content : String :=
    match r.message with
    | .obj m =>
        let c := renderedContent m.content
        match m.thinking with
        | some th => if th = "" then c else th ++ (if c = "" then "" else "\n\n" ++ c)
        | none => c
    | _ => ""
  { content := content
    model := model
    finish_reason := if r.done then some "stop" else none
    prompt_tokens := jsONat r.prompt_eval_count 0
    completion_tokens := jsONat r.eval_count 0
    total_tokens := jsONat r.prompt_eval_count 0 + jsONat r.eval_count 0 }

/-- An Anthropic-schema stream event produced by
`convertOllamaStreamToAnthropic`: the delta carries the raw `content`
value; the stop event carries the usage counters (its `content` is the
constant empty string in the source). -/
inductive ASEvent where
  | contentDelta (text : RespContent)
  | messageStop (model : String) (input_tokens output_tokens : Nat)
deriving Repr, DecidableEq

/-- `convertOllamaStreamToAnthropic` from `src/format/converter.js`:
a defined `message.content` (even empty or an object) yields a delta;
otherwise a true `done` yields the stop event; otherwise null. -/
def convertOllamaStreamToAnthropic (chunk : OllamaPayload) (model : String) : Option ASEvent :=
  match chunk.message with
  | .obj m =>
      match m.content with
      | .none_ =>
          if chunk.done then
            some (.messageStop model (jsONat chunk.prompt_eval_count 0) (jsONat chunk.eval_count 0))
          else none
      | c => some (.contentDelta c)
  | _ =>
      if chunk.done then
        some (.messageStop model (jsONat chunk.prompt_eval_count 0) (jsONat chunk.eval_count 0))
      else none

/-- An OpenAI-schema stream event produced by
`convertOllamaStreamToOpenAI`: an empty-delta stop chunk, or a content
delta. -/
inductive OAIStreamEvent where
  | stop (model : String)
  | delta (model : String) (text : String)
deriving Repr, DecidableEq

/-- Truthiness of a content value: a string iff non-empty, an object
always, undefined never. -/
def contentTruthy : RespContent → Bool
  | .str s => s != ""
  | .obj _ _ => true
  | .none_ => false

/-- The pre-thinking text of `convertOllamaStreamToOpenAI`: guarded by
`if (msg.content)` truthiness, then the same string/object extraction. -/
def streamText (c : RespContent) : String :=
  if contentTruthy c then
    match c with
    | .str s => s
    | .obj cc tt => jsOrStr cc (jsOrStr tt "")
    | .none_ => ""
  else ""

/-- `convertOllamaStreamToOpenAI` from `src/format/converter.js`: a true
`done` yields the stop chunk first; else a truthy message object yields a
delta when the composed text is non-empty; else null. -/
def convertOllamaStreamToOpenAI (chunk : OllamaPayload) (model : String) : Option OAIStreamEvent :=
  if chunk.done then some (.stop model)
  else
    match chunk.message with
    | .obj m =>
        let text := streamText m.content
        let text :=
          match m.thinking with
          | some th => if th = "" then text else th ++ (if text = "" then "" else "\n\n" ++ text)
          | none => text
        if text = "" then none else some (.delta model text)
    | .str _ => none
    | .absent => none

/-! ## Stream demultiplexing (src/ollama/client.js `sendMessageStream`,
src/ollama/openai-client.js `sendOpenAIMessageStream`) -/

/-- JS string coercion of a content value under `content += ...`. -/
def contentToString : RespContent → String
  | .str s => s
  | .obj _ _ => "[object Object]"
  | .none_ => "undefined"

/-- An event yielded by `sendMessageStream` in `src/ollama/client.js`:
a content delta carrying the raw `message.content` value, or the
`message_stop` event carrying the accumulated content text and the usage
counters. -/
inductive ClientEvent where
  | contentDelta (text : RespContent)
  | messageStop (model : String) (contentText : String) (input_tokens output_tokens : Nat)
deriving Repr, DecidableEq

/-- The body of the per-line loop of `sendMessageStream`: a truthy
`message.content` is appended to the accumulator and yields a delta; then,
independently, a true `done` yields the stop event (with the accumulator
as of after this line). -/
def processLine (model : String) (st : String) (c : OllamaPayload) :
    String × List ClientEvent :=
  let step :=
    match c.message with
    | .obj m =>
        if contentTruthy m.content then
          (st ++ contentToString m.content, [ClientEvent.contentDelta m.content])
        else (st, ([] : List ClientEvent))
    | _ => (st, [])
  let evs2 :=
    if c.done then
      [ClientEvent.messageStop model step.1 (jsONat c.prompt_eval_count 0) (jsONat c.eval_count 0)]
    else []
  (step.1, step.2 ++ evs2)

/-- One complete newline-delimited stream line, as the line loop sees it:
a line that `JSON.parse` decodes to a payload, a line on which
`JSON.parse` throws, or a line skipped before parsing (blank or starting
with the SSE comment marker). -/
inductive Line where
  | chunk (c : OllamaPayload)
  | malformed
  | blank
deriving Repr, DecidableEq

/-- The line loop of `sendMessageStream`: blank lines are skipped,
parse failures are logged and skipped, parsed payloads are processed with
the content accumulator threaded through. -/
def processLines (model : String) : String → List Line → List ClientEvent
  | _, [] => []
  | st, .chunk c :: rest =>
      (processLine model st c).2 ++ processLines model (processLine model st c).1 rest
  | st, .malformed :: rest => processLines model st rest
  | st, .blank :: rest => processLines model st rest

/-- All events `sendMessageStream` yields for a given sequence of complete
stream lines (accumulator starts empty). -/
def sendMessageStreamEvents (model : String) (lines : List Line) : List ClientEvent :=
  processLines model "" lines

/-- The line loop of `sendOpenAIMessageStream`: each parsed line is handed
to `convertOllamaStreamToOpenAI` and a non-null chunk is yielded; blank
and malformed lines are skipped. -/
def sendOpenAIStreamEvents (model : String) : List Line → List OAIStreamEvent
  | [] => []
  | .chunk c :: rest =>
      (convertOllamaStreamToOpenAI c model).toList ++ sendOpenAIStreamEvents model rest
  | .malformed :: rest => sendOpenAIStreamEvents model rest
  | .blank :: rest => sendOpenAIStreamEvents model rest

/-! ## Key pool and rotation (src/config.js) -/

/-- The key pool and its rotation cursor (`Config.currentKeyIndex`). -/
structure KeyState where
  keys : List String
  cursor : Nat
deriving Repr, DecidableEq

/-- `Config.getApiKey`: null when the pool is empty, else the key at
`cursor % length`. -/
def getApiKey (st : KeyState) : Option String :=
  if st.keys.length = 0 then none
  else st.keys.get? (st.cursor % st.keys.length)

/-- `Config.rotateApiKey`: advances the cursor modulo the pool length, but
only when more than one key exists. -/
def rotateApiKey (st : KeyState) : KeyState :=
  if st.keys.length > 1 then { st with cursor := (st.cursor + 1) % st.keys.length }
  else st

/-! ## Resilient transport (src/ollama/client.js, src/ollama/openai-client.js) -/

/-- An HTTP response as the dispatch loops see it: status, body text
(`response.text()`), optional `retry-after` header (seconds), and the
decoded JSON body (`response.json()`). -/
structure FetchResp where
  status : Nat
  body : String
  retryAfter : Option Nat
  data : OllamaPayload
deriving Repr, DecidableEq

/-- The outcome of one `fetch` call: a response, or a thrown error. -/
inductive FetchOutcome where
  | resp (r : FetchResp)
  | err (e : JsError)
deriving Repr, DecidableEq

/-- The remote upstream, as a function of the global fetch-call counter
and the API key presented. -/
def Upstream : Type := Nat → String → FetchOutcome

/-- The mutable world the transport threads: the shared key-rotation state
and the number of `fetch` calls made so far. -/
structure World where
  key : KeyState
  fetchCount : Nat
deriving Repr, DecidableEq

/-- `response.ok`: status in the 2xx range. -/
def respOk (r : FetchResp) : Bool :=
  200 ≤ r.status && r.status ≤ 299

/-- The loop body of `fetchWithKeyRotation` (both clients share this exact
logic), with the remaining iteration budget as fuel and `lastError`
threaded: 401 rotates and retries; 429 rotates, sleeps and retries when
more than one key exists; a thrown network error rotates, sleeps and
retries when more than one key exists, recording `lastError`; any other
thrown error is rethrown; any other response is returned; an exhausted
budget throws `lastError` or the synthesized exhaustion error. -/
def fetchGo (up : Upstream) : Nat → World → Option JsError → Except JsError FetchResp × World
  | 0, w, le => (.error (le.getD ⟨"All API keys exhausted"⟩), w)
  | fuel + 1, w, le =>
      match getApiKey w.key with
      | none => (.error ⟨"No API key configured"⟩, w)
      | some key =>
          match up w.fetchCount key with
          | .resp r =>
              if r.status = 401 then
                fetchGo up fuel ⟨rotateApiKey w.key, w.fetchCount + 1⟩ le
              else if r.status = 429 && w.key.keys.length > 1 then
                fetchGo up fuel ⟨rotateApiKey w.key, w.fetchCount + 1⟩ le
              else (.ok r, ⟨w.key, w.fetchCount + 1⟩)
          | .err e =>
              if isNetworkError e && w.key.keys.length > 1 then
                fetchGo up fuel ⟨rotateApiKey w.key, w.fetchCount + 1⟩ (some e)
              else (.error e, ⟨w.key, w.fetchCount + 1⟩)

/-- `fetchWithKeyRotation` with the default attempt budget
`keys.length || 1`. -/
def fetchWithKeyRotation (up : Upstream) (w : World) : Except JsError FetchResp × World :=
  fetchGo up (if w.key.keys.length = 0 then 1 else w.key.keys.length) w none

/-- `MAX_RETRIES` from `src/constants.js`. -/
def MAX_RETRIES : Nat := 3

/-- The outer retry loop of `sendMessage` (src/ollama/client.js), with the
remaining attempts as fuel (`fuel = MAX_RETRIES - attempt`) and
`lastError` threaded.  A 2xx response returns the translated response.
A 429 sleeps and continues.  A 401 or any other non-2xx status throws an
error that the function's own catch block receives: there it is recorded
in `lastError` (or, for a network-shaped message before the last attempt,
retried without recording) and the loop continues — no error exits the
loop early.  After the last attempt, `lastError` (or the synthesized
"Max retries exceeded") is thrown. -/
def sendMessageGo (up : Upstream) (model : String) :
    Nat → World → Option JsError → Except JsError AnthropicResponse × World
  | 0, w, le => (.error (le.getD ⟨"Max retries exceeded"⟩), w)
  | fuel + 1, w, le =>
      match fetchWithKeyRotation up w with
      | (.ok r, w2) =>
          if !respOk r then
            if r.status = 429 then sendMessageGo up model fuel w2 le
            else
              let e : JsError :=
                if r.status = 401 then ⟨"authentication_error: All API keys invalid"⟩
                else ⟨"API error " ++ toString r.status ++ ": " ++ r.body⟩
              -- thrown inside the try, caught by the loop's own catch:
              if isNetworkError e && decide (0 < fuel) then
                sendMessageGo up model fuel w2 le
              else sendMessageGo up model fuel w2 (some e)
          else (.ok (convertOllamaToAnthropic r.data model), w2)
      | (.error e, w2) =>
          -- `attempt < MAX_RETRIES - 1` is `0 < fuel` in fuel form
          if isNetworkError e && decide (0 < fuel) then
            sendMessageGo up model fuel w2 le
          else sendMessageGo up model fuel w2 (some e)

/-- `sendMessage`: the outer loop started with the full retry budget.
The request body plays no role in the transport; the caller's model name
is what the translator needs. -/
def sendMessage (up : Upstream) (model : String) (w : World) :
    Except JsError AnthropicResponse × World :=
  sendMessageGo up model MAX_RETRIES w none

/-- The outer retry loop of `sendOpenAIMessage`
(src/ollama/openai-client.js): identical control flow to `sendMessageGo`,
translating the success with `convertOllamaToOpenAI`. -/
def sendOpenAIMessageGo (up : Upstream) (model : String) :
    Nat → World → Option JsError → Except JsError OpenAIResponse × World
  | 0, w, le => (.error (le.getD ⟨"Max retries exceeded"⟩), w)
  | fuel + 1, w, le =>
      match fetchWithKeyRotation up w with
      | (.ok r, w2) =>
          if !respOk r then
            if r.status = 429 then sendOpenAIMessageGo up model fuel w2 le
            else
              let e : JsError :=
                if r.status = 401 then ⟨"authentication_error: All API keys invalid"⟩
                else ⟨"API error " ++ toString r.status ++ ": " ++ r.body⟩
              if isNetworkError e && decide (0 < fuel) then
                sendOpenAIMessageGo up model fuel w2 le
              else sendOpenAIMessageGo up model fuel w2 (some e)
          else (.ok (convertOllamaToOpenAI r.data model), w2)
      | (.error e, w2) =>
          if isNetworkError e && decide (0 < fuel) then
            sendOpenAIMessageGo up model fuel w2 le
          else sendOpenAIMessageGo up model fuel w2 (some e)

/-- `sendOpenAIMessage`: the outer loop with the full retry budget. -/
def sendOpenAIMessage (up : Upstream) (model : String) (w : World) :
    Except JsError OpenAIResponse × World :=
  sendOpenAIMessageGo up model MAX_RETRIES w none

/-! ## Helper lemmas -/

theorem eq_empty_of_length_zero {s : String} (h : s.length = 0) : s = "" := by
  rcases s with ⟨d⟩
  cases d with
  | nil => rfl
  | cons a as => simp [String.length] at h

theorem append_ne_empty_left (s x : String) (h : s ≠ "") : s ++ x ≠ "" := by
  intro hc
  apply h
  apply eq_empty_of_length_zero
  have hl := congrArg String.length hc
  rw [String.length_append, String.length_empty] at hl
  omega

theorem flatten_map_text (ts : List String) :
    flattenBlocks (ts.map Block.text) = String.join ts := by
  simp [flattenBlocks, String.join, List.foldl_map, renderBlock]

theorem rotate_iterate (keys : List String) (h : keys ≠ []) (n : Nat) :
    rotateApiKey^[n] ⟨keys, 0⟩ = ⟨keys, n % keys.length⟩ := by
  induction n with
  | zero => simp
  | succ n ih =>
      rw [Function.iterate_succ_apply', ih, rotateApiKey]
      by_cases h1 : keys.length > 1
      · simp only [if_pos h1]
        have hm : (n + 1) % keys.length = (n % keys.length + 1 % keys.length) % keys.length :=
          Nat.add_mod n 1 _
        rw [Nat.mod_eq_of_lt h1] at hm
        rw [hm]
      · have hpos : 0 < keys.length := List.length_pos.mpr h
        have hlen : keys.length = 1 := by omega
        simp only [if_neg h1]
        rw [hlen]
        simp [Nat.mod_one]

/-! ## Claim theorems -/

/-- C5: for a non-empty pool of size `k` the rotation cursor stays a valid
index under any number of rotations; starting from cursor 0, after `n`
rotations the active key is the one at index `n mod k`; and a single
rotation preserves cursor validity from any valid state. -/
theorem rotation_modulo_cycle (keys : List String) (n : Nat) (h : keys ≠ []) :
    (rotateApiKey^[n] ⟨keys, 0⟩).cursor < keys.length ∧
    getApiKey (rotateApiKey^[n] ⟨keys, 0⟩) = keys.get? (n % keys.length) ∧
    (∀ st : KeyState, st.cursor < st.keys.length → (rotateApiKey st).cursor < st.keys.length) := by
  have hpos : 0 < keys.length := List.length_pos.mpr h
  rw [rotate_iterate keys h n]
  refine ⟨Nat.mod_lt n hpos, ?_, ?_⟩
  · simp only [getApiKey]
    rw [if_neg (by omega)]
    congr 1
    exact Nat.mod_eq_of_lt (Nat.mod_lt n hpos)
  · intro st hst
    unfold rotateApiKey
    by_cases h1 : st.keys.length > 1
    · simpa [h1] using Nat.mod_lt _ (by omega)
    · simpa [h1] using hst

theorem rotation_modulo_cycle_witness :
    (["a", "b", "c"] : List String) ≠ [] ∧
    (rotateApiKey^[7] ⟨["a", "b", "c"], 0⟩).cursor < (["a", "b", "c"] : List String).length ∧
    getApiKey (rotateApiKey^[7] ⟨["a", "b", "c"], 0⟩) = ["a", "b", "c"].get? (7 % 3) :=
  ⟨by decide, (rotation_modulo_cycle ["a", "b", "c"] 7 (by decide)).1,
   (rotation_modulo_cycle ["a", "b", "c"] 7 (by decide)).2.1⟩

/-- C7: for a schema-A request whose message contents are arrays made
solely of text blocks, every translated message's content is the
concatenation of its block texts in order with no separator (`String.join`);
a message is kept exactly when that concatenation is non-empty. -/
theorem text_blocks_concat_no_separator (model : String) (sys : Option SysVal)
    (mt tp tk : Option Int) (msgs : List (String × List String)) :
    (convertAnthropicToOllama
        ⟨model, msgs.map (fun p => ⟨p.1, .blocks (p.2.map .text)⟩), sys, mt, tp, tk⟩).messages =
      systemPart sys ++
        msgs.flatMap (fun p =>
          if String.join p.2 = "" then []
          else [⟨collapseRole p.1, String.join p.2⟩]) := by
  simp only [convertAnthropicToOllama]
  congr 1
  induction msgs with
  | nil => rfl
  | cons p rest ih =>
      simp only [List.map_cons, List.flatMap_cons, convertMsg, flatten_map_text, ih]

/-- C8: the two stream lines `{"message":{"content":"Hi"},"done":false}`
then `{"done":true,"eval_count":3}` yield exactly two events in order: a
content delta carrying "Hi", then the terminal event whose usage reports 3
output tokens. -/
theorem two_line_stream_two_events (model : String) :
    sendMessageStreamEvents model
        [.chunk ⟨.obj ⟨.str "Hi", none⟩, false, none, none⟩,
         .chunk ⟨.absent, true, none, some 3⟩] =
      [.contentDelta (.str "Hi"), .messageStop model "Hi" 0 3] := by
  rfl

/-- C9: a stream line that fails JSON parsing is skipped and does not
terminate the stream or change any other line's events, in both streaming
clients: deleting a malformed line from the input leaves the emitted
event sequence unchanged. -/
theorem malformed_line_skipped (model st : String) (pre post : List Line) :
    processLines model st (pre ++ .malformed :: post) = processLines model st (pre ++ post) ∧
    sendOpenAIStreamEvents model (pre ++ .malformed :: post) =
      sendOpenAIStreamEvents model (pre ++ post) := by
  constructor
  · induction pre generalizing st with
    | nil => rfl
    | cons l rest ih => cases l <;> simp only [List.cons_append, processLines, List.append_eq] <;> rw [ih]
  · induction pre with
    | nil => rfl
    | cons l rest ih => cases l <;> simp only [List.cons_append, sendOpenAIStreamEvents, List.append_eq] <;> rw [ih]

/-- C10: in the schema-A request translation, a message whose content is a
string is always kept (even empty), an array content is dropped when it
flattens to the empty string, and a content that is neither string nor
array is dropped. -/
theorem message_omission_policy (role s : String) (bs : List Block) :
    convertMsg ⟨role, .str s⟩ = [⟨collapseRole role, s⟩] ∧
    (flattenBlocks bs = "" → convertMsg ⟨role, .blocks bs⟩ = []) ∧
    convertMsg ⟨role, .other⟩ = [] := by
  refine ⟨rfl, fun h => ?_, rfl⟩
  simp [convertMsg, h]

theorem message_omission_policy_witness :
    flattenBlocks [.text "", .other] = "" ∧
    convertMsg ⟨"tool", MsgContent.blocks [.text "", .other]⟩ = [] ∧
    convertMsg ⟨"user", .str ""⟩ = [⟨collapseRole "user", ""⟩] :=
  ⟨rfl, (message_omission_policy "tool" "" [.text "", .other]).2.1 rfl,
   (message_omission_policy "user" "" []).1⟩

/-- The upstream of C6: key "k1" is rejected with 401, any other key
succeeds with a 200 carrying `payload`. -/
def upstreamC6 (payload : OllamaPayload) : Upstream := fun _ k =>
  if k = "k1" then .resp ⟨401, "Unauthorized", none, ⟨.absent, false, none, none⟩⟩
  else .resp ⟨200, "", none, payload⟩

/-- C6: with the 2-key pool ["k1", "k2"] and the cursor on key 1, an
upstream that rejects key 1 with 401 and accepts key 2 with 200 lets the
non-streaming call return the translated success, with the rotation
cursor left on key 2 (index 1) after exactly two fetches. -/
theorem two_key_rotation_success (payload : OllamaPayload) (model : String) :
    sendMessage (upstreamC6 payload) model ⟨⟨["k1", "k2"], 0⟩, 0⟩ =
      (.ok (convertOllamaToAnthropic payload model), ⟨⟨["k1", "k2"], 1⟩, 2⟩) := rfl

theorem streamText_eq_renderedContent (c : RespContent) :
    streamText c = renderedContent c := by
  cases c with
  | str s => by_cases hs : s = "" <;>
      simp [streamText, renderedContent, contentTruthy, bne_iff_ne, hs]
  | obj a b => rfl
  | none_ => rfl

/-- C1 (amended): the thinking composition — rendered text is
`thinking ++ "\n\n" ++ content` when the rendered content is non-empty,
else `thinking` alone — holds for the OpenAI-schema conversions
(non-streaming response conversion and per-line stream conversion on
non-terminal lines); the Anthropic-schema conversions ignore the
`thinking` field. -/
theorem thinking_composition_openai (c : RespContent) (t model : String)
    (d : Bool) (pc ec : Option Nat) (h : t ≠ "") :
    (convertOllamaToOpenAI ⟨.obj ⟨c, some t⟩, d, pc, ec⟩ model).content =
      (if renderedContent c = "" then t else t ++ "\n\n" ++ renderedContent c) ∧
    convertOllamaStreamToOpenAI ⟨.obj ⟨c, some t⟩, false, pc, ec⟩ model =
      some (.delta model (if renderedContent c = "" then t else t ++ "\n\n" ++ renderedContent c)) := by
  have hne : t ++ ("\n\n" ++ renderedContent c) ≠ "" :=
    append_ne_empty_left t _ h
  by_cases hc : renderedContent c = ""
  · constructor
    · simp [convertOllamaToOpenAI, h, hc]
    · simp [convertOllamaStreamToOpenAI, streamText_eq_renderedContent, h, hc]
  · constructor
    · simp [convertOllamaToOpenAI, h, hc, String.append_assoc]
    · simp [convertOllamaStreamToOpenAI, streamText_eq_renderedContent, h, hc, hne,
        String.append_assoc]

theorem thinking_composition_openai_witness :
    ("T" : String) ≠ "" ∧
    (convertOllamaToOpenAI ⟨.obj ⟨.str "C", some "T"⟩, true, none, some 2⟩ "m").content =
      (if renderedContent (.str "C") = "" then "T"
       else "T" ++ "\n\n" ++ renderedContent (.str "C")) :=
  ⟨by decide, (thinking_composition_openai (.str "C") "T" "m" true none (some 2) (by decide)).1⟩

/-- C1 counterexample: on a target response whose message carries
`thinking = "T"` and `content = "C"`, the Anthropic-schema conversions
render just "C", not `"T" ++ "\n\n" ++ "C"` — the composition rule does
not hold for every response-translation operation. -/
theorem thinking_ignored_anthropic_cex :
    (convertOllamaToAnthropic ⟨.obj ⟨.str "C", some "T"⟩, true, none, none⟩ "m").text =
      .str "C" ∧
    JStr.str "C" ≠ JStr.str ("T" ++ "\n\n" ++ "C") ∧
    convertOllamaStreamToAnthropic ⟨.obj ⟨.str "C", some "T"⟩, false, none, none⟩ "m" =
      some (.contentDelta (.str "C")) ∧
    (processLine "m" "" ⟨.obj ⟨.str "C", some "T"⟩, false, none, none⟩).2 =
      [.contentDelta (.str "C")] :=
  ⟨rfl, by decide, rfl, rfl⟩

/-- Truthiness of `data.message?.content` for one parsed stream line. -/
def lineContentTruthy (c : OllamaPayload) : Bool :=
  match c.message with
  | .obj m => contentTruthy m.content
  | _ => false

/-- C3 (amended): the two per-line stream converters emit at most one
event per parsed line; the Anthropic streaming client's inline per-line
handling emits at most two, and emits two — a content delta and the
terminal event — exactly when the line carries truthy message content and
a true done flag. -/
theorem one_event_per_line_converters (c : OllamaPayload) (model st : String) :
    (convertOllamaStreamToAnthropic c model).toList.length ≤ 1 ∧
    (convertOllamaStreamToOpenAI c model).toList.length ≤ 1 ∧
    (processLine model st c).2.length ≤ 2 ∧
    ((processLine model st c).2.length = 2 ↔ lineContentTruthy c = true ∧ c.done = true) := by
  refine ⟨?_, ?_, ?_, ?_⟩
  · cases convertOllamaStreamToAnthropic c model <;> simp
  · cases convertOllamaStreamToOpenAI c model <;> simp
  · rcases c with ⟨msg, d, pc, ec⟩
    cases msg <;> cases d <;> simp only [processLine] <;> split <;> simp
  · rcases c with ⟨msg, d, pc, ec⟩
    cases msg <;> cases d <;>
      simp only [processLine, lineContentTruthy] <;>
      (split <;> simp_all)

/-- C3 counterexample: a single parsed line with non-empty content "Hi"
and `done:true` makes the Anthropic streaming client emit two events —
a content delta and the terminal event — from that one line. -/
theorem delta_and_terminal_same_line_cex :
    (processLine "m" "" ⟨.obj ⟨.str "Hi", none⟩, true, none, some 2⟩).2 =
      [.contentDelta (.str "Hi"), .messageStop "m" "Hi" 0 2] ∧
    (processLine "m" "" ⟨.obj ⟨.str "Hi", none⟩, true, none, some 2⟩).2.length = 2 :=
  ⟨rfl, rfl⟩

/-- The upstream of C4: every fetch gets HTTP 429. -/
def upstream429 : Upstream := fun _ _ =>
  .resp ⟨429, "Too Many Requests", none, ⟨.absent, false, none, none⟩⟩

/-- C4 (amended): with a 1-key pool and an upstream that answers 429 on
every attempt, the non-streaming call performs exactly the 3-attempt
outer budget and then surfaces the generic "Max retries exceeded" error,
which the repository's own classifier maps to api_error. -/
theorem rate_limit_exhaustion_generic_error :
    sendMessage upstream429 "m" ⟨⟨["k"], 0⟩, 0⟩ =
      (.error ⟨"Max retries exceeded"⟩, ⟨⟨["k"], 0⟩, 3⟩) ∧
    parseErrorType "Max retries exceeded" = .api :=
  ⟨rfl, rfl⟩

/-- C4 counterexample: the error surfaced after the 429-exhausted run is
the generic "Max retries exceeded", which is not distinguishable as the
rate-limit kind (the server's classifier does not map it to
rate_limit_error) — not a RateLimitError as claimed. -/
theorem rate_limit_error_kind_cex :
    (sendMessage upstream429 "m" ⟨⟨["k"], 0⟩, 0⟩).1 =
      .error ⟨"Max retries exceeded"⟩ ∧
    parseErrorType "Max retries exceeded" ≠ .rate_limit :=
  ⟨rfl, by decide⟩

theorem getApiKey_isSome (keys : List String) (cur : Nat) (h : keys ≠ []) :
    ∃ key, getApiKey ⟨keys, cur⟩ = some key := by
  have hpos : 0 < keys.length := List.length_pos.mpr h
  refine ⟨keys.get ⟨cur % keys.length, Nat.mod_lt cur hpos⟩, ?_⟩
  simp only [getApiKey]
  rw [if_neg (by omega)]
  exact List.get?_eq_get (Nat.mod_lt cur hpos)

theorem fetch_pass (r : FetchResp) (w : World) (hk : w.key.keys ≠ [])
    (h401 : r.status ≠ 401) (h429 : r.status ≠ 429) :
    fetchWithKeyRotation (fun _ _ => .resp r) w = (.ok r, ⟨w.key, w.fetchCount + 1⟩) := by
  obtain ⟨⟨keys, cur⟩, n⟩ := w
  rcases keys with _ | ⟨k, ks⟩
  · exact absurd rfl hk
  · obtain ⟨key, hkey⟩ := getApiKey_isSome (k :: ks) cur hk
    simp only [fetchWithKeyRotation, List.length_cons]
    rw [if_neg (Nat.succ_ne_zero _)]
    simp only [fetchGo, hkey, h401, h429]
    simp [h401, h429]

theorem sendMessageGo_const_fail (status : Nat) (body model : String)
    (payload : OllamaPayload) (keys : List String) (cur : Nat)
    (hk : keys ≠ []) (hok : ¬(200 ≤ status ∧ status ≤ 299))
    (h429 : status ≠ 429) (h401 : status ≠ 401) :
    ∀ (fuel n : Nat) (le : Option JsError),
      sendMessageGo (fun _ _ => .resp ⟨status, body, none, payload⟩) model (fuel + 1)
          ⟨⟨keys, cur⟩, n⟩ le =
        (.error ⟨"API error " ++ toString status ++ ": " ++ body⟩,
         ⟨⟨keys, cur⟩, n + (fuel + 1)⟩) := by
  have hro : respOk ⟨status, body, none, payload⟩ = false := by
    simp only [respOk, Bool.and_eq_false_iff, decide_eq_false_iff_not]
    omega
  intro fuel
  induction fuel with
  | zero =>
      intro n le
      rw [sendMessageGo, fetch_pass _ _ hk h401 h429]
      simp only [hro, Bool.not_false]
      rw [if_pos trivial]
      simp only [if_neg h429, if_neg h401]
      simp [sendMessageGo]
  | succ fuel ih =>
      intro n le
      rw [sendMessageGo, fetch_pass _ _ hk h401 h429]
      simp only [hro, Bool.not_false]
      rw [if_pos trivial]
      simp only [if_neg h429, if_neg h401]
      by_cases hn :
          isNetworkError ⟨"API error " ++ toString status ++ ": " ++ body⟩ = true
      · simp only [hn, Bool.true_and]
        rw [if_pos (decide_eq_true (Nat.succ_pos fuel))]
        rw [ih]
        simp only [Prod.mk.injEq, World.mk.injEq, true_and, and_true]
        omega
      · simp only [Bool.not_eq_true] at hn
        simp only [hn, Bool.false_and]
        rw [if_neg Bool.false_ne_true]
        rw [ih]
        simp only [Prod.mk.injEq, World.mk.injEq, true_and, and_true]
        omega

theorem sendOpenAIGo_const_fail (status : Nat) (body model : String)
    (payload : OllamaPayload) (keys : List String) (cur : Nat)
    (hk : keys ≠ []) (hok : ¬(200 ≤ status ∧ status ≤ 299))
    (h429 : status ≠ 429) (h401 : status ≠ 401) :
    ∀ (fuel n : Nat) (le : Option JsError),
      sendOpenAIMessageGo (fun _ _ => .resp ⟨status, body, none, payload⟩) model (fuel + 1)
          ⟨⟨keys, cur⟩, n⟩ le =
        (.error ⟨"API error " ++ toString status ++ ": " ++ body⟩,
         ⟨⟨keys, cur⟩, n + (fuel + 1)⟩) := by
  have hro : respOk ⟨status, body, none, payload⟩ = false := by
    simp only [respOk, Bool.and_eq_false_iff, decide_eq_false_iff_not]
    omega
  intro fuel
  induction fuel with
  | zero =>
      intro n le
      rw [sendOpenAIMessageGo, fetch_pass _ _ hk h401 h429]
      simp only [hro, Bool.not_false]
      rw [if_pos trivial]
      simp only [if_neg h429, if_neg h401]
      simp [sendOpenAIMessageGo]
  | succ fuel ih =>
      intro n le
      rw [sendOpenAIMessageGo, fetch_pass _ _ hk h401 h429]
      simp only [hro, Bool.not_false]
      rw [if_pos trivial]
      simp only [if_neg h429, if_neg h401]
      by_cases hn :
          isNetworkError ⟨"API error " ++ toString status ++ ": " ++ body⟩ = true
      · simp only [hn, Bool.true_and]
        rw [if_pos (decide_eq_true (Nat.succ_pos fuel))]
        rw [ih]
        simp only [Prod.mk.injEq, World.mk.injEq, true_and, and_true]
        omega
      · simp only [Bool.not_eq_true] at hn
        simp only [hn, Bool.false_and]
        rw [if_neg Bool.false_ne_true]
        rw [ih]
        simp only [Prod.mk.injEq, World.mk.injEq, true_and, and_true]
        omega

/-- C2 (amended): a non-streaming dispatch that fails with a non-transient
HTTP error (a non-2xx status other than 429 and 401) does not exit the
outer loop after a single attempt: the error is recorded, the dispatch is
retried, and after all 3 outer attempts the last such error is raised to
the caller unchanged — in both non-streaming clients. -/
theorem non_transient_error_retried_then_raised
    (keys : List String) (cur status : Nat) (body model : String)
    (payload : OllamaPayload) (hk : keys ≠ [])
    (hok : ¬(200 ≤ status ∧ status ≤ 299)) (h429 : status ≠ 429) (h401 : status ≠ 401) :
    sendMessage (fun _ _ => .resp ⟨status, body, none, payload⟩) model ⟨⟨keys, cur⟩, 0⟩ =
      (.error ⟨"API error " ++ toString status ++ ": " ++ body⟩, ⟨⟨keys, cur⟩, 3⟩) ∧
    sendOpenAIMessage (fun _ _ => .resp ⟨status, body, none, payload⟩) model ⟨⟨keys, cur⟩, 0⟩ =
      (.error ⟨"API error " ++ toString status ++ ": " ++ body⟩, ⟨⟨keys, cur⟩, 3⟩) := by
  constructor
  · simpa using
      sendMessageGo_const_fail status body model payload keys cur hk hok h429 h401 2 0 none
  · simpa using
      sendOpenAIGo_const_fail status body model payload keys cur hk hok h429 h401 2 0 none

theorem non_transient_error_retried_then_raised_witness :
    ((["k"] : List String) ≠ [] ∧ ¬(200 ≤ 500 ∧ 500 ≤ 299) ∧ (500 : Nat) ≠ 429 ∧
      (500 : Nat) ≠ 401) ∧
    sendMessage (fun _ _ => .resp ⟨500, "boom", none, ⟨.absent, false, none, none⟩⟩) "m"
        ⟨⟨["k"], 0⟩, 0⟩ =
      (.error ⟨"API error " ++ toString 500 ++ ": " ++ "boom"⟩, ⟨⟨["k"], 0⟩, 3⟩) :=
  ⟨⟨by decide, by decide, by decide, by decide⟩,
   (non_transient_error_retried_then_raised ["k"] 0 500 "boom" "m"
      ⟨.absent, false, none, none⟩ (by decide) (by decide) (by decide) (by decide)).1⟩

/-- The upstream of C2's counterexample: every fetch gets HTTP 500. -/
def upstream500 : Upstream := fun _ _ =>
  .resp ⟨500, "boom", none, ⟨.absent, false, none, none⟩⟩

/-- C2 counterexample: with an upstream failing every attempt with the
non-transient HTTP 500, the non-streaming call makes 3 fetch attempts —
not a single one — before surfacing the error. -/
theorem non_transient_single_attempt_cex :
    (sendMessage upstream500 "m" ⟨⟨["k"], 0⟩, 0⟩).2.fetchCount = 3 ∧
    (sendMessage upstream500 "m" ⟨⟨["k"], 0⟩, 0⟩).1 =
      .error ⟨"API error 500: boom"⟩ ∧
    (3 : Nat) ≠ 1 :=
  ⟨rfl, rfl, by decide⟩

end OllamaProxy
